import Mathlib

/-!
Verification of the branch-lifecycle and event-normalization core of the
claude-code-action repository.

The TypeScript sources are shallowly embedded as executable Lean functions:

* `setupBranch` (from `src/github/operations/branch/setup-branch.ts`, provided
  as `src/unnamed/part_000`) becomes a pure function from the GitHub context,
  the pull-request snapshot, the remote state and the current wall-clock date
  to a `RunOutcome`: the list of local git commands issued, the GitHub-Actions
  outputs emitted, and either a `BranchInfo` record or a process exit code.
* `determineBranchWithAI` (the AI branch advisor from
  `src/create-prompt/index.ts`) becomes a pure function over an `AIEnv`
  describing the credentials, the fetched branch list, the repository default
  branch and the completion-API response.
* the event-data `switch` of `prepareContext` (from
  `src/create-prompt/index.ts`) becomes `parseEventData`, returning
  `Except String EventData` where the `String` is the thrown error message.

JavaScript truthiness of `string | undefined` values is modelled by `truthy`
on `Option String` (absent or empty means falsy).
-/

/-- JS truthiness for a `string | undefined` value: `undefined` and `""` are
falsy, every other string is truthy. -/
def truthy : Option String → Bool
  | none => false
  | some s => !(s == "")

/-- JS `Array.prototype.join(sep)`. -/
def joinWith (sep : String) : List String → String
  | [] => ""
  | [x] => x
  | x :: y :: xs => x ++ sep ++ joinWith sep (y :: xs)

/-- The `BranchInfo` return type of `setupBranch`
(`{ baseBranch; claudeBranch?; currentBranch }`). -/
structure BranchInfo where
  baseBranch : String
  claudeBranch : Option String
  currentBranch : String
deriving Repr, DecidableEq

/-- The `commits` field of the GraphQL pull-request snapshot
(`prData.commits.totalCount`). -/
structure PRCommits where
  totalCount : Nat
deriving Repr, DecidableEq

/-- The fields of the pull-request snapshot (`GitHubPullRequest`) that
`setupBranch` reads: `state`, `headRefName`, `baseRefName`,
`commits.totalCount`.  `state` is the raw GraphQL string
(`"OPEN"`, `"CLOSED"`, `"MERGED"`). -/
structure GitHubPullRequest where
  state : String
  headRefName : String
  baseRefName : String
  commits : PRCommits
deriving Repr, DecidableEq

/-- The `context.inputs` fields read by `setupBranch`.  Optional string inputs
are `Option String` and are tested with JS truthiness.  The
`branchPrefix` input is named `branchPrefixVal` in the embedding. -/
structure Inputs where
  baseBranch : Option String
  baseBranchPrompt : Option String
  branchPrefixVal : String
  useTimestampSuffix : Bool
  useCommitSigning : Bool
deriving Repr, DecidableEq

/-- The fields of `ParsedGitHubContext` read by `setupBranch`. -/
structure Context where
  entityNumber : Nat
  isPR : Bool
  inputs : Inputs
deriving Repr, DecidableEq

/-- The remote repository state consulted through the Octokit REST client:
the repository default branch (`repos.get(...).data.default_branch`) and, for
each branch name, whether `git.getRef({ ref: heads/<name> })` succeeds. -/
structure Remote where
  defaultBranch : String
  refExists : String → Bool

/-- The components of the JS `Date` that the timestamp suffix uses.
`getMonth` is 0-based, exactly as in JS. -/
structure DateParts where
  getFullYear : Nat
  getMonth : Nat
  getDate : Nat
  getHours : Nat
  getMinutes : Nat
deriving Repr, DecidableEq

/-- A local git command executed by `setupBranch` through the Bun shell. -/
inductive GitCmd where
  /-- `git fetch origin --depth=<depth> <ref>` -/
  | fetch (depth : Nat) (ref : String)
  /-- `git checkout <ref>` -/
  | checkout (ref : String)
  /-- `git checkout -b <name>` -/
  | checkoutNew (name : String)
deriving Repr, DecidableEq

deriving instance DecidableEq for Except

/-- The observable outcome of one `setupBranch` run: the git commands issued,
the `core.setOutput` pairs emitted, and either the returned `BranchInfo` or
the `process.exit` code. -/
structure RunOutcome where
  cmds : List GitCmd
  outputs : List (String × String)
  result : Except Nat BranchInfo
deriving Repr, DecidableEq

/-- JS `String.prototype.padStart(2, "0")`. -/
def padStart2 (s : String) : String :=
  String.mk (List.replicate (2 - s.length) '0') ++ s

/-- The minute-resolution timestamp built by `setupBranch` when
`useTimestampSuffix` is enabled:
`${getFullYear}${pad(getMonth+1)}${pad(getDate)}-${pad(getHours)}${pad(getMinutes)}`. -/
def timestampOf (now : DateParts) : String :=
  toString now.getFullYear ++ padStart2 (toString (now.getMonth + 1)) ++
    padStart2 (toString now.getDate) ++ "-" ++
    padStart2 (toString now.getHours) ++ padStart2 (toString now.getMinutes)

/-- The raw branch name synthesized by `setupBranch`:
`${branchPrefix}${entityType}-${entityNumber}` with an optional
`-${timestamp}` suffix. -/
def rawBranchName (inputs : Inputs) (entityType : String) (entityNumber : Nat)
    (now : DateParts) : String :=
  if inputs.useTimestampSuffix then
    inputs.branchPrefixVal ++ entityType ++ "-" ++ toString entityNumber ++
      "-" ++ timestampOf now
  else
    inputs.branchPrefixVal ++ entityType ++ "-" ++ toString entityNumber

/-- The sanitization applied by `setupBranch` to the synthesized branch name:
`branchName.toLowerCase().substring(0, 50)` — and nothing else.  Lowercasing
maps every character, `substring(0, 50)` keeps the first 50 characters; both
are expressed on the character list. -/
def sanitizeBranchName (branchName : String) : String :=
  String.mk ((branchName.data.map Char.toLower).take 50)

/-- The source-branch resolution of `setupBranch` (its lines 76-103): an
explicit truthy `base_branch` input wins; otherwise, whether or not a
`base_branch_prompt` is configured, the repository default branch is used —
the AI path in this file is a placeholder that logs and falls back. -/
def resolveSourceBranch (inputs : Inputs) (remote : Remote) : String :=
  if truthy inputs.baseBranch then
    inputs.baseBranch.getD ""
  else if truthy inputs.baseBranchPrompt then
    remote.defaultBranch
  else
    remote.defaultBranch

/-- The open-PR path of `setupBranch`: fetch the head ref with depth
`Math.max(commitCount, 20)`, check it out, and return the PR's base ref and
head ref with no working branch. -/
def openPROutcome (prData : GitHubPullRequest) : RunOutcome :=
  let branchName := prData.headRefName
  let fetchDepth := max prData.commits.totalCount 20
  { cmds := [GitCmd.fetch fetchDepth branchName, GitCmd.checkout branchName]
    outputs := []
    result := Except.ok
      { baseBranch := prData.baseRefName
        claudeBranch := none
        currentBranch := branchName } }

/-- The branch-creation path of `setupBranch` (issues and closed/merged PRs):
resolve the source branch, synthesize and sanitize the new name, verify the
source ref exists (`process.exit(1)` otherwise), then either defer creation
to the signing service (commit-signing mode) or `git checkout -b` locally. -/
def createBranchOutcome (ctx : Context) (remote : Remote) (now : DateParts) :
    RunOutcome :=
  let sourceBranch := resolveSourceBranch ctx.inputs remote
  let entityType := if ctx.isPR then "pr" else "issue"
  let newBranch :=
    sanitizeBranchName (rawBranchName ctx.inputs entityType ctx.entityNumber now)
  if remote.refExists sourceBranch then
    if ctx.inputs.useCommitSigning then
      { cmds := []
        outputs := [("CLAUDE_BRANCH", newBranch), ("BASE_BRANCH", sourceBranch)]
        result := Except.ok
          { baseBranch := sourceBranch
            claudeBranch := some newBranch
            currentBranch := sourceBranch } }
    else
      { cmds := [GitCmd.checkoutNew newBranch]
        outputs := [("CLAUDE_BRANCH", newBranch), ("BASE_BRANCH", sourceBranch)]
        result := Except.ok
          { baseBranch := sourceBranch
            claudeBranch := some newBranch
            currentBranch := newBranch } }
  else
    { cmds := [], outputs := [], result := Except.error 1 }

/-- `setupBranch`: open PRs take the checkout path; closed/merged PRs and
issues take the branch-creation path. -/
def setupBranch (ctx : Context) (prData : GitHubPullRequest) (remote : Remote)
    (now : DateParts) : RunOutcome :=
  if ctx.isPR && !(prData.state == "CLOSED" || prData.state == "MERGED") then
    openPROutcome prData
  else
    createBranchOutcome ctx remote now

/-- One block of the Anthropic messages-API response content. -/
inductive ContentBlock where
  /-- a block with `type === "text"` and its text -/
  | text (s : String)
  /-- any block whose `type` is not `"text"` -/
  | other
deriving Repr, DecidableEq

/-- The environment consulted by `determineBranchWithAI`: the two credential
environment variables, the repository default branch, the branch list
returned by `repos.listBranches`, and the completion-API response (`Except`
models a rejected `anthropic.messages.create` call, caught by the
surrounding `try`). -/
structure AIEnv where
  anthropicApiKey : Option String
  claudeCodeOAuthToken : Option String
  defaultBranch : String
  branches : List String
  aiResponse : Except Unit (List ContentBlock)
deriving Repr, DecidableEq

/-- JS `String.prototype.trim()`: drop whitespace from both ends, expressed
on the character list. -/
def trimStr (s : String) : String :=
  String.mk (((s.data.dropWhile Char.isWhitespace).reverse.dropWhile
    Char.isWhitespace).reverse)

/-- The trimmed text of the first response content block, when the advisor
ran and that block has `type === "text"`; `none` for a rejected call or a
missing/non-text first block. -/
def advisorText (env : AIEnv) : Option String :=
  match env.aiResponse with
  | Except.error _ => none
  | Except.ok content =>
    match content.head? with
    | some (ContentBlock.text t) => some (trimStr t)
    | _ => none

/-- `determineBranchWithAI` from `src/create-prompt/index.ts`: without
credentials, or on any error of the completion call, return the repository
default branch; otherwise take the trimmed text of the first response block
(the default branch if that block is absent or not text) and return it only
when it occurs in the fetched branch list, falling back to the default
branch otherwise. -/
def determineBranchWithAI (env : AIEnv) : String :=
  if !truthy env.anthropicApiKey && !truthy env.claudeCodeOAuthToken then
    env.defaultBranch
  else
    match env.aiResponse with
    | Except.error _ => env.defaultBranch
    | Except.ok content =>
      let branchName :=
        match content.head? with
        | some (ContentBlock.text t) => trimStr t
        | _ => env.defaultBranch
      if env.branches.contains branchName then branchName
      else env.defaultBranch

/-- The hardcoded default disallowed tools (`DISALLOWED_TOOLS` in
`src/create-prompt/index.ts`). -/
def DISALLOWED_TOOLS : List String := ["WebSearch", "WebFetch"]

/-- `buildDisallowedToolsString`: start from `DISALLOWED_TOOLS`, drop the
entries the caller explicitly allowed (when the allowed list is non-empty),
join with commas, then append the comma-joined custom disallowed tools. -/
def buildDisallowedToolsString (customDisallowedTools : Option (List String))
    (allowedTools : Option (List String)) : String :=
  let disallowedTools := DISALLOWED_TOOLS
  let disallowedTools :=
    match allowedTools with
    | some ats =>
      if ats.length > 0 then
        disallowedTools.filter (fun tool => !ats.contains tool)
      else disallowedTools
    | none => disallowedTools
  let allDisallowedTools := joinWith "," disallowedTools
  match customDisallowedTools with
  | some cts =>
    if cts.length > 0 then
      if !(allDisallowedTools == "") then
        allDisallowedTools ++ "," ++ joinWith "," cts
      else joinWith "," cts
    else allDisallowedTools
  | none => allDisallowedTools

/-- The flat list whose comma-join `buildDisallowedToolsString` produces:
the defaults minus the explicitly allowed ones, followed by the custom
disallowed tools. -/
def buildDisallowedToolsList (customDisallowedTools : Option (List String))
    (allowedTools : Option (List String)) : List String :=
  (match allowedTools with
   | some ats =>
     if ats.length > 0 then
       DISALLOWED_TOOLS.filter (fun tool => !ats.contains tool)
     else DISALLOWED_TOOLS
   | none => DISALLOWED_TOOLS) ++
  (match customDisallowedTools with
   | some cts => if cts.length > 0 then cts else []
   | none => [])

/-- An `Option String` kept only when truthy, mirroring the JS spread idiom
`...(value && \x7b value \x7d)` that includes a field only for a truthy value. -/
def truthyOpt (o : Option String) : Option String :=
  if truthy o then o else none

/-- The fields of `ParsedGitHubContext` read by the event-data `switch` of
`prepareContext`.  `commentId` and `commentBody` stand for the values the
surrounding code extracted from the event payload (absent when the payload
carries none). -/
structure PCtx where
  eventName : String
  eventAction : Option String
  isPR : Bool
  entityNumber : Nat
  assigneeTrigger : Option String
  labelTrigger : Option String
  directPrompt : Option String
  commentId : Option String
  commentBody : Option String
deriving Repr, DecidableEq

/-- The `EventData` tagged union of `src/create-prompt/types`, one
constructor per case actually built by `prepareContext` (the `issue_comment`
event splits into a PR and an issue variant, as in the code). -/
inductive EventData where
  | pullRequestReviewComment (prNumber : String) (commentId : Option String)
      (commentBody : String) (claudeBranch : Option String)
      (baseBranch : Option String)
  | pullRequestReview (prNumber : String) (commentBody : String)
      (claudeBranch : Option String) (baseBranch : Option String)
  | issueCommentPR (commentId : String) (prNumber : String)
      (commentBody : String) (claudeBranch : Option String)
      (baseBranch : Option String)
  | issueCommentIssue (commentId : String) (claudeBranch : String)
      (baseBranch : String) (issueNumber : String) (commentBody : String)
  | issuesAssigned (issueNumber : String) (baseBranch : String)
      (claudeBranch : String) (assigneeTrigger : Option String)
  | issuesLabeled (issueNumber : String) (baseBranch : String)
      (claudeBranch : String) (labelTrigger : String)
  | issuesOpened (issueNumber : String) (baseBranch : String)
      (claudeBranch : String)
  | pullRequest (eventAction : Option String) (prNumber : String)
      (claudeBranch : Option String) (baseBranch : Option String)
deriving Repr, DecidableEq

/-- The event-data `switch` of `prepareContext`: each `throw new Error(msg)`
becomes `Except.error msg`, each constructed `eventData` object becomes
`Except.ok` of the matching `EventData` constructor.  `prNumber` and
`issueNumber` are derived from `entityNumber` exactly as in the source. -/
def parseEventData (ctx : PCtx) (baseBranch claudeBranch : Option String) :
    Except String EventData :=
  let prNumber : Option String :=
    if ctx.isPR then some (toString ctx.entityNumber) else none
  let issueNumber : Option String :=
    if ctx.isPR then none else some (toString ctx.entityNumber)
  match ctx.eventName with
  | "pull_request_review_comment" =>
    if !truthy prNumber then
      Except.error "PR_NUMBER is required for pull_request_review_comment event"
    else if !ctx.isPR then
      Except.error "IS_PR must be true for pull_request_review_comment event"
    else if !truthy ctx.commentBody then
      Except.error "COMMENT_BODY is required for pull_request_review_comment event"
    else
      Except.ok (EventData.pullRequestReviewComment (prNumber.getD "")
        (truthyOpt ctx.commentId) (ctx.commentBody.getD "")
        (truthyOpt claudeBranch) (truthyOpt baseBranch))
  | "pull_request_review" =>
    if !truthy prNumber then
      Except.error "PR_NUMBER is required for pull_request_review event"
    else if !ctx.isPR then
      Except.error "IS_PR must be true for pull_request_review event"
    else if !truthy ctx.commentBody then
      Except.error "COMMENT_BODY is required for pull_request_review event"
    else
      Except.ok (EventData.pullRequestReview (prNumber.getD "")
        (ctx.commentBody.getD "") (truthyOpt claudeBranch)
        (truthyOpt baseBranch))
  | "issue_comment" =>
    if !truthy ctx.commentId then
      Except.error "COMMENT_ID is required for issue_comment event"
    else if !truthy ctx.commentBody then
      Except.error "COMMENT_BODY is required for issue_comment event"
    else if ctx.isPR then
      if !truthy prNumber then
        Except.error "PR_NUMBER is required for issue_comment event for PRs"
      else
        Except.ok (EventData.issueCommentPR (ctx.commentId.getD "")
          (prNumber.getD "") (ctx.commentBody.getD "")
          (truthyOpt claudeBranch) (truthyOpt baseBranch))
    else if !truthy claudeBranch then
      Except.error "CLAUDE_BRANCH is required for issue_comment event"
    else if !truthy baseBranch then
      Except.error "BASE_BRANCH is required for issue_comment event"
    else if !truthy issueNumber then
      Except.error "ISSUE_NUMBER is required for issue_comment event for issues"
    else
      Except.ok (EventData.issueCommentIssue (ctx.commentId.getD "")
        (claudeBranch.getD "") (baseBranch.getD "")
        (issueNumber.getD "") (ctx.commentBody.getD ""))
  | "issues" =>
    if !truthy ctx.eventAction then
      Except.error "GITHUB_EVENT_ACTION is required for issues event"
    else if !truthy issueNumber then
      Except.error "ISSUE_NUMBER is required for issues event"
    else if ctx.isPR then
      Except.error "IS_PR must be false for issues event"
    else if !truthy baseBranch then
      Except.error "BASE_BRANCH is required for issues event"
    else if !truthy claudeBranch then
      Except.error "CLAUDE_BRANCH is required for issues event"
    else if ctx.eventAction.getD "" == "assigned" then
      if !truthy ctx.assigneeTrigger && !truthy ctx.directPrompt then
        Except.error "ASSIGNEE_TRIGGER is required for issue assigned event"
      else
        Except.ok (EventData.issuesAssigned (issueNumber.getD "")
          (baseBranch.getD "") (claudeBranch.getD "")
          (truthyOpt ctx.assigneeTrigger))
    else if ctx.eventAction.getD "" == "labeled" then
      if !truthy ctx.labelTrigger then
        Except.error "LABEL_TRIGGER is required for issue labeled event"
      else
        Except.ok (EventData.issuesLabeled (issueNumber.getD "")
          (baseBranch.getD "") (claudeBranch.getD "")
          (ctx.labelTrigger.getD ""))
    else if ctx.eventAction.getD "" == "opened" then
      Except.ok (EventData.issuesOpened (issueNumber.getD "")
        (baseBranch.getD "") (claudeBranch.getD ""))
    else
      Except.error ("Unsupported issue action: " ++ ctx.eventAction.getD "")
  | "pull_request" =>
    if !truthy prNumber then
      Except.error "PR_NUMBER is required for pull_request event"
    else if !ctx.isPR then
      Except.error "IS_PR must be true for pull_request event"
    else
      Except.ok (EventData.pullRequest ctx.eventAction (prNumber.getD "")
        (truthyOpt claudeBranch) (truthyOpt baseBranch))
  | other => Except.error ("Unsupported event type: " ++ other)

/-! ### Helper lemmas -/

theorem toDigits_length_pos (n : Nat) : 0 < (Nat.toDigits 10 n).length := by
  show 0 < (Nat.toDigitsCore 10 (n + 1) n []).length
  by_cases h : n / 10 = 0
  · simp [Nat.toDigitsCore, h]
  · simp only [Nat.toDigitsCore, h, if_false]
    rw [Nat.toDigitsCore_lens_eq]
    exact Nat.succ_pos _

theorem toString_nat_ne_empty (n : Nat) : ((toString n : String) == "") = false := by
  have hlen : 0 < (toString n : String).length := by
    show 0 < (Nat.toDigits 10 n).asString.length
    simpa [List.asString, String.length] using toDigits_length_pos n
  rw [beq_eq_false_iff_ne]
  intro heq
  rw [heq] at hlen
  simp at hlen

theorem truthy_some_toString (n : Nat) : truthy (some (toString n)) = true := by
  simp [truthy, toString_nat_ne_empty]

theorem joinWith_append (sep : String) (l1 l2 : List String)
    (h1 : l1 ≠ []) (h2 : l2 ≠ []) :
    joinWith sep (l1 ++ l2) = joinWith sep l1 ++ sep ++ joinWith sep l2 := by
  induction l1 with
  | nil => exact absurd rfl h1
  | cons x xs ih =>
    cases xs with
    | nil =>
      cases l2 with
      | nil => exact absurd rfl h2
      | cons y ys => simp [joinWith]
    | cons z zs =>
      have := ih (by simp)
      simp only [List.cons_append] at this ⊢
      simp only [joinWith, this, String.append_assoc]

/-! ### Concrete fixtures used by witnesses and counterexamples -/

/-- A remote whose default branch is `main` and where only `main` exists. -/
def remoteMain : Remote :=
  { defaultBranch := "main", refExists := fun b => b == "main" }

/-- A fixed wall-clock date (unused when the timestamp suffix is disabled). -/
def nowFixed : DateParts :=
  { getFullYear := 2025, getMonth := 0, getDate := 1, getHours := 2,
    getMinutes := 3 }

/-- Inputs with no explicit base branch, no AI prompt, prefix `claude-`,
timestamps disabled, commit signing disabled. -/
def inputsPlain : Inputs :=
  { baseBranch := none, baseBranchPrompt := none, branchPrefixVal := "claude-",
    useTimestampSuffix := false, useCommitSigning := false }

/-- Open pull request #42 with head `feature-x`, base `main`, 5 commits. -/
def prFeatureX : GitHubPullRequest :=
  { state := "OPEN", headRefName := "feature-x", baseRefName := "main",
    commits := { totalCount := 5 } }

/-- The context of a run triggered on pull request #42. -/
def ctxPR42 : Context :=
  { entityNumber := 42, isPR := true, inputs := inputsPlain }

/-! ### C1: open pull requests are checked out with bounded fetch depth -/

/-- C1: for every open pull request, `setupBranch` fetches the head ref with
depth `max(commit count, 20)`, checks it out, and returns the PR's base ref
as `baseBranch`, the head ref as `currentBranch`, and no working branch. -/
theorem setupBranch_open_pr (ctx : Context) (prData : GitHubPullRequest)
    (remote : Remote) (now : DateParts)
    (hPR : ctx.isPR = true) (hOpen : prData.state = "OPEN") :
    setupBranch ctx prData remote now =
      { cmds := [GitCmd.fetch (max prData.commits.totalCount 20) prData.headRefName,
                 GitCmd.checkout prData.headRefName]
        outputs := []
        result := Except.ok
          { baseBranch := prData.baseRefName
            claudeBranch := none
            currentBranch := prData.headRefName } } := by
  have hc : (ctx.isPR && !(prData.state == "CLOSED" || prData.state == "MERGED"))
      = true := by
    rw [hPR, hOpen]; rfl
  simp only [setupBranch]
  rw [hc]
  simp [openPROutcome]

/-- C1 witness: open PR #42 (`feature-x` → `main`, 5 commits) is fetched with
depth 20 and checked out, with no working branch in the result. -/
theorem setupBranch_open_pr_witness :
    setupBranch ctxPR42 prFeatureX remoteMain nowFixed =
      { cmds := [GitCmd.fetch 20 "feature-x", GitCmd.checkout "feature-x"]
        outputs := []
        result := Except.ok
          { baseBranch := "main", claudeBranch := none,
            currentBranch := "feature-x" } } := by
  rw [setupBranch_open_pr ctxPR42 prFeatureX remoteMain nowFixed rfl rfl]
  decide

/-! ### C2: base-branch precedence -/

/-- C2: the source-branch resolution of `setupBranch` obeys the strict
precedence: a configured (truthy) explicit base branch is returned verbatim
whatever else is available, and with neither an explicit base branch nor an
AI prompt configured the result is exactly the repository default branch. -/
theorem resolveSourceBranch_precedence (inputs : Inputs) (remote : Remote) :
    (truthy inputs.baseBranch = true →
      resolveSourceBranch inputs remote = inputs.baseBranch.getD "") ∧
    (truthy inputs.baseBranch = false → truthy inputs.baseBranchPrompt = false →
      resolveSourceBranch inputs remote = remote.defaultBranch) := by
  constructor
  · intro h
    simp [resolveSourceBranch, h]
  · intro h1 h2
    simp [resolveSourceBranch, h1, h2]

/-- C2 witness: an explicit `develop` beats the default `main`, and with no
explicit branch and no prompt the default `main` is returned. -/
theorem resolveSourceBranch_precedence_witness :
    resolveSourceBranch
      { inputsPlain with baseBranch := some "develop",
                         baseBranchPrompt := some "pick a branch" } remoteMain
      = "develop" ∧
    resolveSourceBranch inputsPlain remoteMain = "main" := by
  constructor
  · have h := (resolveSourceBranch_precedence
      { inputsPlain with baseBranch := some "develop",
                         baseBranchPrompt := some "pick a branch" } remoteMain).1
      (by decide)
    simpa using h
  · have h := (resolveSourceBranch_precedence inputsPlain remoteMain).2
      (by decide) (by decide)
    simpa using h

/-! ### The creation path is taken for issues and closed/merged PRs -/

theorem setupBranch_creation_path (ctx : Context) (prData : GitHubPullRequest)
    (remote : Remote) (now : DateParts)
    (hPath : ctx.isPR = false ∨ prData.state = "CLOSED" ∨ prData.state = "MERGED") :
    setupBranch ctx prData remote now = createBranchOutcome ctx remote now := by
  have hc : (ctx.isPR && !(prData.state == "CLOSED" || prData.state == "MERGED"))
      = false := by
    rcases hPath with h | h | h
    · rw [h]; rfl
    · rw [h]
      have hb : (("CLOSED" : String) == "CLOSED" || ("CLOSED" : String) == "MERGED")
          = true := by decide
      rw [hb]; simp
    · rw [h]
      have hb : (("MERGED" : String) == "CLOSED" || ("MERGED" : String) == "MERGED")
          = true := by decide
      rw [hb]; simp
  simp only [setupBranch]
  rw [hc]
  simp

/-! ### C4: closed/merged PRs fall through to branch creation -/

/-- Closed pull request #7 (head `old-head`, base `dev`). -/
def prClosed7 : GitHubPullRequest :=
  { state := "CLOSED", headRefName := "old-head", baseRefName := "dev",
    commits := { totalCount := 3 } }

/-- The context of a run triggered on pull request #7. -/
def ctxPR7 : Context :=
  { entityNumber := 7, isPR := true, inputs := inputsPlain }

/-- C4: for every closed or merged pull request, `setupBranch` never checks
out the PR's head ref but takes the branch-creation path; with no explicit
base branch, no AI prompt, default `main`, prefix `claude-`, timestamps and
signing disabled, it creates `claude-pr-7` for PR #7 and returns
`baseBranch = "main"`, `workingBranch = "claude-pr-7"`. -/
theorem setupBranch_closed_pr_falls_through (ctx : Context)
    (prData : GitHubPullRequest) (remote : Remote) (now : DateParts)
    (hPR : ctx.isPR = true)
    (hClosed : prData.state = "CLOSED" ∨ prData.state = "MERGED") :
    GitCmd.checkout prData.headRefName ∉ (setupBranch ctx prData remote now).cmds ∧
    (ctx.entityNumber = 7 → ctx.inputs = inputsPlain →
      remote.defaultBranch = "main" → remote.refExists "main" = true →
      setupBranch ctx prData remote now =
        { cmds := [GitCmd.checkoutNew "claude-pr-7"]
          outputs := [("CLAUDE_BRANCH", "claude-pr-7"), ("BASE_BRANCH", "main")]
          result := Except.ok
            { baseBranch := "main", claudeBranch := some "claude-pr-7",
              currentBranch := "claude-pr-7" } }) := by
  rw [setupBranch_creation_path ctx prData remote now (Or.inr hClosed)]
  constructor
  · simp only [createBranchOutcome]
    split
    · split
      · simp
      · simp
    · simp
  · intro h7 hin hdef hre
    simp [createBranchOutcome, resolveSourceBranch, truthy, rawBranchName,
      sanitizeBranchName, inputsPlain, hin, h7, hPR, hdef, hre]
    all_goals decide

/-- C4 witness: closed PR #7 under the scenario-B configuration yields the
new local branch `claude-pr-7` on base `main`. -/
theorem setupBranch_closed_pr_witness :
    setupBranch ctxPR7 prClosed7 remoteMain nowFixed =
      { cmds := [GitCmd.checkoutNew "claude-pr-7"]
        outputs := [("CLAUDE_BRANCH", "claude-pr-7"), ("BASE_BRANCH", "main")]
        result := Except.ok
          { baseBranch := "main", claudeBranch := some "claude-pr-7",
            currentBranch := "claude-pr-7" } } :=
  (setupBranch_closed_pr_falls_through ctxPR7 prClosed7 remoteMain nowFixed
    rfl (Or.inl rfl)).2 rfl rfl rfl (by decide)

/-! ### C6: a missing source ref is fatal and returns no branch state -/

/-- Inputs that explicitly select the nonexistent base branch `ghost`. -/
def inputsGhost : Inputs := { inputsPlain with baseBranch := some "ghost" }

/-- The context of a run triggered on issue #12 with the `ghost` base. -/
def ctxIssueGhost : Context :=
  { entityNumber := 12, isPR := false, inputs := inputsGhost }

/-- A closed PR snapshot used where the PR data is irrelevant. -/
def prIrrelevant : GitHubPullRequest :=
  { state := "CLOSED", headRefName := "h", baseRefName := "b",
    commits := { totalCount := 0 } }

/-- C6: on the branch-creation path, when the resolved source branch has no
ref on the remote, `setupBranch` ends the run with exit code 1 and returns
no branch-state record. -/
theorem setupBranch_missing_ref_fatal (ctx : Context)
    (prData : GitHubPullRequest) (remote : Remote) (now : DateParts)
    (hPath : ctx.isPR = false ∨ prData.state = "CLOSED" ∨ prData.state = "MERGED")
    (hRef : remote.refExists (resolveSourceBranch ctx.inputs remote) = false) :
    (setupBranch ctx prData remote now).result = Except.error 1 ∧
    ∀ info : BranchInfo,
      (setupBranch ctx prData remote now).result ≠ Except.ok info := by
  rw [setupBranch_creation_path ctx prData remote now hPath]
  refine ⟨?_, ?_⟩
  · simp [createBranchOutcome, hRef]
  · intro info
    simp [createBranchOutcome, hRef]

/-- C6 witness: issue #12 with explicit base `ghost`, absent from the
remote, makes the run exit with code 1. -/
theorem setupBranch_missing_ref_fatal_witness :
    (setupBranch ctxIssueGhost prIrrelevant remoteMain nowFixed).result =
      Except.error 1 :=
  (setupBranch_missing_ref_fatal ctxIssueGhost prIrrelevant remoteMain nowFixed
    (Or.inl rfl) (by decide)).1

/-! ### C8: commit signing defers branch creation -/

/-- Inputs identical to `inputsPlain` but with commit signing enabled. -/
def inputsSigning : Inputs := { inputsPlain with useCommitSigning := true }

/-- The context of a run triggered on issue #5 in commit-signing mode. -/
def ctxIssueSign : Context :=
  { entityNumber := 5, isPR := false, inputs := inputsSigning }

/-- C8: on the branch-creation path with an existing source ref, commit
signing makes `setupBranch` run no git command at all and report the source
branch as `currentBranch` with the generated name as the working branch,
while without signing it creates and checks out the new branch and reports
it as `currentBranch`. -/
theorem setupBranch_signing_defers_creation (ctx : Context)
    (prData : GitHubPullRequest) (remote : Remote) (now : DateParts)
    (src nb : String)
    (hPath : ctx.isPR = false ∨ prData.state = "CLOSED" ∨ prData.state = "MERGED")
    (hsrc : src = resolveSourceBranch ctx.inputs remote)
    (hnb : nb = sanitizeBranchName (rawBranchName ctx.inputs
      (if ctx.isPR then "pr" else "issue") ctx.entityNumber now))
    (hRef : remote.refExists src = true) :
    (ctx.inputs.useCommitSigning = true →
      (setupBranch ctx prData remote now).cmds = [] ∧
      (setupBranch ctx prData remote now).result = Except.ok
        { baseBranch := src, claudeBranch := some nb, currentBranch := src }) ∧
    (ctx.inputs.useCommitSigning = false →
      (setupBranch ctx prData remote now).cmds = [GitCmd.checkoutNew nb] ∧
      (setupBranch ctx prData remote now).result = Except.ok
        { baseBranch := src, claudeBranch := some nb, currentBranch := nb }) := by
  subst hsrc
  subst hnb
  rw [setupBranch_creation_path ctx prData remote now hPath]
  constructor
  · intro hs
    constructor <;> simp [createBranchOutcome, hRef, hs]
  · intro hs
    constructor <;> simp [createBranchOutcome, hRef, hs]

/-- C8 witness: issue #5 in signing mode creates nothing locally, stays on
`main`, and reports working branch `claude-issue-5`. -/
theorem setupBranch_signing_defers_creation_witness :
    (setupBranch ctxIssueSign prIrrelevant remoteMain nowFixed).cmds = [] ∧
    (setupBranch ctxIssueSign prIrrelevant remoteMain nowFixed).result =
      Except.ok { baseBranch := "main", claudeBranch := some "claude-issue-5",
                  currentBranch := "main" } :=
  (setupBranch_signing_defers_creation ctxIssueSign prIrrelevant remoteMain
    nowFixed "main" "claude-issue-5" (Or.inl rfl) (by decide) (by decide)
    (by decide)).1 rfl

/-! ### C7: what the sanitizer actually guarantees -/

/-- Inputs whose branch prefix contains an underscore (the `branch_prefix`
action input is an arbitrary user string). -/
def inputsUnderscore : Inputs :=
  { inputsPlain with branchPrefixVal := "claude_" }

/-- The context of a run triggered on issue #7 with prefix `claude_`. -/
def ctxIssueUnderscore : Context :=
  { entityNumber := 7, isPR := false, inputs := inputsUnderscore }

/-- C7 failing evaluation: with prefix `claude_` the generated name
`claude_issue-7` passes through sanitization unchanged — the underscore
survives, contradicting the adjacent source comment ("Alphanumeric with
hyphens", "No underscores") and the specified sanitization invariant;
the code only lowercases and truncates. -/
theorem sanitize_keeps_underscore :
    sanitizeBranchName (rawBranchName inputsUnderscore "issue" 7 nowFixed) =
      "claude_issue-7" ∧
    ("claude_issue-7" : String).data.contains '_' = true ∧
    (setupBranch ctxIssueUnderscore prIrrelevant remoteMain nowFixed).result =
      Except.ok
        { baseBranch := "main", claudeBranch := some "claude_issue-7",
          currentBranch := "claude_issue-7" } := by
  refine ⟨by decide, by decide, by decide⟩

/-! ### C9: the advisor absorbs every failure -/

/-- Every run of `determineBranchWithAI` either returns the repository
default branch or returns an advisor suggestion that is present in the
fetched branch list. -/
theorem determineBranchWithAI_characterization (env : AIEnv) :
    determineBranchWithAI env = env.defaultBranch ∨
    (∃ t, advisorText env = some t ∧ env.branches.contains t = true ∧
      determineBranchWithAI env = t) := by
  by_cases hk : (!truthy env.anthropicApiKey && !truthy env.claudeCodeOAuthToken)
      = true
  · left; simp [determineBranchWithAI, hk]
  · rcases hresp : env.aiResponse with e | content
    · left; simp [determineBranchWithAI, hk, hresp]
    · rcases hh : content.head? with _ | blk
      · left; simp [determineBranchWithAI, hk, hresp, hh, ite_self]
      · cases blk with
        | text t =>
          by_cases hc : env.branches.contains (trimStr t) = true
          · right
            have hmem : trimStr t ∈ env.branches := by simpa using hc
            exact ⟨trimStr t, by simp [advisorText, hresp, hh],
              hc, by simp [determineBranchWithAI, hk, hresp, hh, hmem]⟩
          · left
            simp only [Bool.not_eq_true] at hc
            have hnm : trimStr t ∉ env.branches := by simpa using hc
            simp [determineBranchWithAI, hk, hresp, hh, hnm]
        | other => left; simp [determineBranchWithAI, hk, hresp, hh, ite_self]

/-- C9: with an AI prompt configured, the resolver's advisor step never
propagates an error: a missing credential pair, a rejected completion call,
a missing or non-text first response block, and an empty trimmed suggestion
all make `determineBranchWithAI` return the repository default branch
(branch names on the remote are nonempty, hence the hypothesis that the
fetched list does not contain `""`). -/
theorem advisor_failures_degrade_to_default (env : AIEnv)
    (hne : env.branches.contains "" = false)
    (h : env.aiResponse = Except.error () ∨
      (truthy env.anthropicApiKey = false ∧
        truthy env.claudeCodeOAuthToken = false) ∨
      advisorText env = none ∨ advisorText env = some "") :
    determineBranchWithAI env = env.defaultBranch := by
  rcases h with herr | ⟨h1, h2⟩ | hnone | hempty
  · simp [determineBranchWithAI, herr, ite_self]
  · simp [determineBranchWithAI, h1, h2]
  · rcases determineBranchWithAI_characterization env with hd | ⟨t, ht, hc, heq⟩
    · exact hd
    · rw [hnone] at ht
      exact Option.noConfusion ht
  · rcases determineBranchWithAI_characterization env with hd | ⟨t, ht, hc, heq⟩
    · exact hd
    · rw [hempty] at ht
      cases ht
      rw [hne] at hc
      cases hc

/-- An advisor environment whose completion call is rejected. -/
def envAdvisorError : AIEnv :=
  { anthropicApiKey := some "key", claudeCodeOAuthToken := none,
    defaultBranch := "main", branches := ["develop", "main"],
    aiResponse := Except.error () }

/-- C9 witness: a rejected completion call yields the default `main`. -/
theorem advisor_failures_degrade_witness :
    determineBranchWithAI envAdvisorError = "main" :=
  advisor_failures_degrade_to_default envAdvisorError (by decide) (Or.inl rfl)

/-! ### C3: resolver output versus the fetched branch list -/

/-- An advisor environment where the suggestion `hotfix-9` is not in the
fetched branch list `["develop"]`, and the default branch `main` is not in
that list either (no explicit base branch is configured in this run). -/
def envSuggestUnknown : AIEnv :=
  { anthropicApiKey := some "key", claudeCodeOAuthToken := none,
    defaultBranch := "main", branches := ["develop"],
    aiResponse := Except.ok [ContentBlock.text "hotfix-9"] }

/-- C3 counterexample: the advisor suggests `hotfix-9`, which is not in the
fetched branch list, so the resolver falls back to the default branch
`main` — but `main` is not a member of the fetched branch list either, and
no explicit value was configured, so the output escapes
`listBranches(...) ∪ \x7bexplicit value\x7d`. -/
theorem resolver_output_escapes_branch_list :
    advisorText envSuggestUnknown = some "hotfix-9" ∧
    envSuggestUnknown.branches.contains "hotfix-9" = false ∧
    determineBranchWithAI envSuggestUnknown = "main" ∧
    envSuggestUnknown.branches.contains "main" = false := by
  refine ⟨by decide, by decide, by decide, by decide⟩

/-- C3 amended: the resolver's output always lies in the fetched branch
list united with the explicitly configured value and the repository default
branch; an advisor suggestion that is not in the fetched branch list is
never returned — the advisor falls back to the repository default
instead. -/
theorem resolver_output_in_list_or_default (inputs : Inputs) (remote : Remote)
    (env : AIEnv) :
    (resolveSourceBranch inputs remote = inputs.baseBranch.getD "" ∨
      resolveSourceBranch inputs remote = remote.defaultBranch) ∧
    (env.branches.contains (determineBranchWithAI env) = true ∨
      determineBranchWithAI env = env.defaultBranch) ∧
    (∀ t, advisorText env = some t → env.branches.contains t = false →
      determineBranchWithAI env = env.defaultBranch) := by
  refine ⟨?_, ?_, ?_⟩
  · unfold resolveSourceBranch
    split
    · exact Or.inl rfl
    · split
      · exact Or.inr rfl
      · exact Or.inr rfl
  · rcases determineBranchWithAI_characterization env with hd | ⟨t, ht, hc, heq⟩
    · exact Or.inr hd
    · exact Or.inl (heq ▸ hc)
  · intro t ht hnc
    rcases determineBranchWithAI_characterization env with hd | ⟨u, hu, hc, heq⟩
    · exact hd
    · rw [ht] at hu
      cases hu
      rw [hnc] at hc
      cases hc

/-- C3 amended witness: in the `envSuggestUnknown` run the advisor text is
a suggestion outside the branch list, and the resolver returns the default
branch. -/
theorem resolver_output_in_list_or_default_witness :
    determineBranchWithAI envSuggestUnknown = envSuggestUnknown.defaultBranch :=
  (resolver_output_in_list_or_default inputsPlain remoteMain
    envSuggestUnknown).2.2 "hotfix-9" (by decide) (by decide)

/-! ### C5: the assigned variant requires a trigger or a direct prompt -/

/-- C5: for an `issues` event with action `assigned` (with the variant's
other preconditions satisfied), omitting both the assignee trigger and the
direct prompt fails with the validation error citing `ASSIGNEE_TRIGGER`,
while providing either one yields the `assigned` variant. -/
theorem prepareContext_assigned_requires_trigger (ctx : PCtx)
    (bb cb : Option String)
    (hEvent : ctx.eventName = "issues")
    (hAction : ctx.eventAction = some "assigned")
    (hPR : ctx.isPR = false)
    (hbb : truthy bb = true) (hcb : truthy cb = true) :
    (truthy ctx.assigneeTrigger = false → truthy ctx.directPrompt = false →
      parseEventData ctx bb cb =
        Except.error "ASSIGNEE_TRIGGER is required for issue assigned event") ∧
    ((truthy ctx.assigneeTrigger = true ∨ truthy ctx.directPrompt = true) →
      parseEventData ctx bb cb = Except.ok (EventData.issuesAssigned
        (toString ctx.entityNumber) (bb.getD "") (cb.getD "")
        (truthyOpt ctx.assigneeTrigger))) := by
  have hissue : truthy (some (toString ctx.entityNumber)) = true :=
    truthy_some_toString ctx.entityNumber
  have hact : truthy (some "assigned") = true := by decide
  have hassigned : (((some "assigned" : Option String).getD "") == "assigned")
      = true := by decide
  constructor
  · intro h1 h2
    simp [parseEventData, hEvent, hAction, hPR, hbb, hcb, hissue, hact,
      hassigned, h1, h2]
  · intro h
    rcases h with h | h
    · simp [parseEventData, hEvent, hAction, hPR, hbb, hcb, hissue, hact,
        hassigned, h]
    · simp [parseEventData, hEvent, hAction, hPR, hbb, hcb, hissue, hact,
        hassigned, h]

/-- Issue #101 assigned, with no assignee trigger and no direct prompt. -/
def ctxIssue101 : PCtx :=
  { eventName := "issues", eventAction := some "assigned", isPR := false,
    entityNumber := 101, assigneeTrigger := none, labelTrigger := none,
    directPrompt := none, commentId := none, commentBody := none }

/-- C5 witness: issue #101 `assigned` with neither trigger nor prompt fails
with the `ASSIGNEE_TRIGGER` validation error. -/
theorem prepareContext_assigned_requires_trigger_witness :
    parseEventData ctxIssue101 (some "main") (some "claude-issue-101") =
      Except.error "ASSIGNEE_TRIGGER is required for issue assigned event" :=
  (prepareContext_assigned_requires_trigger ctxIssue101 (some "main")
    (some "claude-issue-101") rfl rfl rfl (by decide) (by decide)).1 rfl rfl

/-! ### C10: allowed defaults are dropped from the disallowed string -/

theorem filter_disallowed_empty_of_join_empty (p : String → Bool)
    (h : (joinWith "," (DISALLOWED_TOOLS.filter p) == "") = true) :
    DISALLOWED_TOOLS.filter p = [] := by
  cases hw : p "WebSearch" <;> cases hf : p "WebFetch"
  · simp [DISALLOWED_TOOLS, List.filter, hw, hf]
  · rw [show DISALLOWED_TOOLS.filter p = ["WebFetch"] from by
      simp [DISALLOWED_TOOLS, List.filter, hw, hf]] at h
    exact absurd h (by decide)
  · rw [show DISALLOWED_TOOLS.filter p = ["WebSearch"] from by
      simp [DISALLOWED_TOOLS, List.filter, hw, hf]] at h
    exact absurd h (by decide)
  · rw [show DISALLOWED_TOOLS.filter p = ["WebSearch", "WebFetch"] from by
      simp [DISALLOWED_TOOLS, List.filter, hw, hf]] at h
    exact absurd h (by decide)

theorem buildDisallowedToolsString_eq_joinWith
    (custom allowed : Option (List String)) :
    buildDisallowedToolsString custom allowed =
      joinWith "," (buildDisallowedToolsList custom allowed) := by
  have hD : (DISALLOWED_TOOLS : List String) ≠ [] := by decide
  have hDj : ((joinWith "," DISALLOWED_TOOLS) == "") = false := by decide
  rcases allowed with _ | ats
  · rcases custom with _ | cts
    · simp [buildDisallowedToolsString, buildDisallowedToolsList]
    · by_cases hl : cts.length > 0
      · have hcne : cts ≠ [] := by
          intro hnil; rw [hnil] at hl; simp at hl
        simp only [buildDisallowedToolsString, buildDisallowedToolsList, hl,
          if_true, hDj]
        rw [joinWith_append "," DISALLOWED_TOOLS cts hD hcne]
        rfl
      · simp [buildDisallowedToolsString, buildDisallowedToolsList, hl]
  · by_cases hal : ats.length > 0
    · rcases custom with _ | cts
      · simp [buildDisallowedToolsString, buildDisallowedToolsList, hal]
      · by_cases hl : cts.length > 0
        · have hcne : cts ≠ [] := by
            intro hnil; rw [hnil] at hl; simp at hl
          by_cases hj : ((joinWith ","
              (DISALLOWED_TOOLS.filter (fun tool => !ats.contains tool))) == "")
              = true
          · have hfe := filter_disallowed_empty_of_join_empty _ hj
            simp only [buildDisallowedToolsString, buildDisallowedToolsList,
              hal, hl, if_true]
            rw [hj, hfe]
            simp [joinWith]
          · have hj' : ((joinWith ","
                (DISALLOWED_TOOLS.filter (fun tool => !ats.contains tool))) == "")
                = false := by
              cases hb : ((joinWith ","
                  (DISALLOWED_TOOLS.filter (fun tool => !ats.contains tool))) == "")
              · rfl
              · exact absurd hb hj
            have hfne : DISALLOWED_TOOLS.filter (fun tool => !ats.contains tool)
                ≠ [] := by
              intro hnil
              rw [hnil] at hj'
              exact absurd hj' (by decide)
            simp only [buildDisallowedToolsString, buildDisallowedToolsList,
              hal, hl, if_true, hj']
            rw [joinWith_append "," _ cts hfne hcne]
            rfl
        · simp [buildDisallowedToolsString, buildDisallowedToolsList, hal, hl]
    · rcases custom with _ | cts
      · simp [buildDisallowedToolsString, buildDisallowedToolsList, hal]
      · by_cases hl : cts.length > 0
        · have hcne : cts ≠ [] := by
            intro hnil; rw [hnil] at hl; simp at hl
          simp only [buildDisallowedToolsString, buildDisallowedToolsList, hal,
            if_false, hl, if_true, hDj]
          rw [joinWith_append "," DISALLOWED_TOOLS cts hD hcne]
          rfl
        · simp [buildDisallowedToolsString, buildDisallowedToolsList, hal, hl]

theorem buildDisallowedToolsList_some_none (ats : List String)
    (hal : ats.length > 0) :
    buildDisallowedToolsList none (some ats) =
      DISALLOWED_TOOLS.filter (fun t => !ats.contains t) := by
  simp [buildDisallowedToolsList, hal]

theorem buildDisallowedToolsList_some_pos (cts ats : List String)
    (hal : ats.length > 0) (hl : cts.length > 0) :
    buildDisallowedToolsList (some cts) (some ats) =
      DISALLOWED_TOOLS.filter (fun t => !ats.contains t) ++ cts := by
  simp [buildDisallowedToolsList, hal, hl]

theorem buildDisallowedToolsList_some_zero (cts ats : List String)
    (hal : ats.length > 0) (hl : ¬cts.length > 0) :
    buildDisallowedToolsList (some cts) (some ats) =
      DISALLOWED_TOOLS.filter (fun t => !ats.contains t) := by
  simp [buildDisallowedToolsList, hal, hl]

/-- C10 counterexample: a default disallowed tool that the caller allowed is
NOT always omitted from the output — re-disallowing it through the custom
list puts it right back: with `customDisallowedTools = ["WebSearch"]` and
`allowedTools = ["WebSearch"]`, the defaults filter drops `WebSearch` but the
custom append reinstates it, and the output is `"WebFetch,WebSearch"`, the
comma-join of a list that contains `WebSearch`. -/
theorem buildDisallowedTools_custom_reinstates :
    "WebSearch" ∈ DISALLOWED_TOOLS ∧
    "WebSearch" ∈ (["WebSearch"] : List String) ∧
    buildDisallowedToolsString (some ["WebSearch"]) (some ["WebSearch"]) =
      "WebFetch,WebSearch" ∧
    buildDisallowedToolsList (some ["WebSearch"]) (some ["WebSearch"]) =
      ["WebFetch", "WebSearch"] ∧
    "WebSearch" ∈
      buildDisallowedToolsList (some ["WebSearch"]) (some ["WebSearch"]) := by
  refine ⟨by decide, by decide, by decide, by decide, by decide⟩

/-- C10 amended: a built-in default disallowed tool (`WebSearch`,
`WebFetch`) that the caller listed among the allowed tools and did not
itself re-disallow through the custom disallowed list is omitted from the
disallowed output (the output is the comma-join of
`buildDisallowedToolsList`, and the tool is not in that list); with no
custom disallowed tools and every default explicitly allowed, the output is
the empty string. -/
theorem buildDisallowedTools_omits_allowed
    (custom allowed : Option (List String)) (tool : String)
    (h1 : tool ∈ DISALLOWED_TOOLS)
    (h2 : tool ∈ allowed.getD [])
    (h3 : tool ∉ custom.getD []) :
    tool ∉ buildDisallowedToolsList custom allowed ∧
    buildDisallowedToolsString custom allowed =
      joinWith "," (buildDisallowedToolsList custom allowed) ∧
    (∀ ats : List String, "WebSearch" ∈ ats → "WebFetch" ∈ ats →
      buildDisallowedToolsString none (some ats) = "") := by
  refine ⟨?_, buildDisallowedToolsString_eq_joinWith custom allowed, ?_⟩
  · rcases allowed with _ | ats
    · simp at h2
    · have h2' : tool ∈ ats := by simpa using h2
      have hal : ats.length > 0 := by
        cases ats with
        | nil => cases h2'
        | cons a l => simp
      have hfilter : tool ∉
          DISALLOWED_TOOLS.filter (fun t => !ats.contains t) := by
        intro hmf
        rcases List.mem_filter.mp hmf with ⟨_, hp⟩
        simp at hp
        exact hp h2'
      intro hm
      rcases custom with _ | cts
      · rw [buildDisallowedToolsList_some_none ats hal] at hm
        exact hfilter hm
      · by_cases hl : cts.length > 0
        · rw [buildDisallowedToolsList_some_pos cts ats hal hl] at hm
          rcases List.mem_append.mp hm with hm | hm
          · exact hfilter hm
          · exact h3 (by simpa using hm)
        · rw [buildDisallowedToolsList_some_zero cts ats hal hl] at hm
          exact hfilter hm
  · intro ats hW hF
    have hal : ats.length > 0 := by
      cases ats with
      | nil => cases hW
      | cons a l => simp
    simp [buildDisallowedToolsString, DISALLOWED_TOOLS, List.filter, hal,
      hW, hF, joinWith]

/-- C10 witness: allowing both `WebSearch` and `WebFetch` with no custom
disallowed tools makes the disallowed-tools string empty. -/
theorem buildDisallowedTools_omits_allowed_witness :
    buildDisallowedToolsString none (some ["WebSearch", "WebFetch"]) = "" :=
  (buildDisallowedTools_omits_allowed none (some ["WebSearch", "WebFetch"])
    "WebSearch" (by decide) (by decide) (by decide)).2.2
    ["WebSearch", "WebFetch"] (by decide) (by decide)
